import Mathlib

/-!
Verification of the crawler repository's translation layer: validators,
model-string parsing, domain-model construction-time validation, the
extraction and completion adapters' error classification, and the
summarize dual-write output resolution.  All definitions are shallow
embeddings of the Python source under `src/`; strings are modelled as
`List Char` where convenient, and each Python function keeps its name.
-/

namespace Crawler

/-! ## Generic string helpers (embedding of the Python `str` operations used) -/

/-- ASCII lowercase of a character list, embedding Python `str.lower()`
for the ASCII inputs that occur here. -/
def lowerChars (l : List Char) : List Char := l.map Char.toLower

/-- `startsWithL needle hay` asks whether `needle` is an initial run of `hay`.
Used to build the substring test that embeds Python's `in` operator. -/
def startsWithL : List Char → List Char → Bool
  | n :: ns, h :: hs => n = h && startsWithL ns hs
  | [], _ => true
  | _, [] => false

/-- `pyIn needle hay` embeds Python's substring containment `needle in hay`. -/
def pyIn (needle : List Char) : List Char → Bool
  | [] => needle.isEmpty
  | b :: bs => startsWithL needle (b :: bs) || pyIn needle bs

/-- Embedding of Python `s.split(sep)` for a one-character separator:
always returns one more part than there are separators. -/
def splitOnChar (sep : Char) : List Char → List (List Char)
  | [] => [[]]
  | c :: t =>
    if c = sep then [] :: splitOnChar sep t
    else
      match splitOnChar sep t with
      | h :: r => (c :: h) :: r
      | [] => [[c]]

/-! ## Embedding of `urllib.parse.urlparse` (the parts this code uses) -/

/-- The record returned by `urlparse`.  Bracketed IPv6 hosts and netloc
character validation are not modelled; no claim depends on them. -/
structure UrlParts where
  scheme : List Char
  netloc : List Char
  path : List Char
  params : List Char
  query : List Char
  fragment : List Char
deriving Repr, DecidableEq

/-- Characters allowed in a URL scheme after the leading letter. -/
def isSchemeChar (c : Char) : Bool := c.isAlphanum || c = '+' || c = '-' || c = '.'

/-- Split a leading `scheme:` off the URL when the text before the first
colon is a well-formed scheme, as CPython's `urlsplit` does. -/
def splitScheme (l : List Char) : Option (List Char × List Char) :=
  let pre := l.takeWhile (fun c => c ≠ ':')
  if pre.length = l.length then none
  else
    match pre with
    | [] => none
    | c0 :: _ =>
      if c0.isAlpha && pre.all isSchemeChar then
        some (lowerChars pre, l.drop (pre.length + 1))
      else none

/-- After the scheme, `//netloc` extends to the next `/`, `?` or `#`. -/
def splitNetloc : List Char → (List Char × List Char)
  | '/' :: '/' :: rest =>
    let nl := rest.takeWhile (fun c => ¬ (c = '/' ∨ c = '?' ∨ c = '#'))
    (nl, rest.drop nl.length)
  | l => ([], l)

/-- Split at the first occurrence of `sep`, keeping everything when absent,
embedding Python's `s.split(sep, 1)` used for `#` and `?`. -/
def splitOnFirst (sep : Char) (l : List Char) : (List Char × List Char) :=
  let pre := l.takeWhile (fun c => c ≠ sep)
  if pre.length = l.length then (l, [])
  else (pre, l.drop (pre.length + 1))

/-- CPython `_splitparams`: parameters start at the first `;` in the last
path segment (or anywhere when the path has no `/`). -/
def splitparams (l : List Char) : (List Char × List Char) :=
  if l.contains '/' then
    let lastSeg := (l.reverse.takeWhile (fun c => c ≠ '/')).reverse
    let before := l.take (l.length - lastSeg.length)
    let pre := lastSeg.takeWhile (fun c => c ≠ ';')
    if pre.length = lastSeg.length then (l, [])
    else (before ++ pre, lastSeg.drop (pre.length + 1))
  else
    let pre := l.takeWhile (fun c => c ≠ ';')
    if pre.length = l.length then (l, [])
    else (pre, l.drop (pre.length + 1))

/-- Embedding of `urllib.parse.urlparse`: scheme, then `//netloc`, then
fragment, then query, then parameters split out of the path. -/
def urlparse (url : String) : UrlParts :=
  let l := url.data
  let sr := match splitScheme l with
    | some p => p
    | none => ([], l)
  let nr := splitNetloc sr.2
  let rf := splitOnFirst '#' nr.2
  let rq := splitOnFirst '?' rf.1
  let pp := splitparams rq.1
  ⟨sr.1, nr.1, pp.1, pp.2, rq.2, rf.2⟩

/-! ## `src/lib/validators.py` -/

/-- The `OutputFormat` enum of `src/models/scrape.py`. -/
inductive OutputFormat where
  | markdown
  | html
deriving Repr, DecidableEq

/-- Embedding of `validate_output_path`: Python
`path.endswith(("/", "\\"))`, true exactly when the final character is a
separator. -/
def validate_output_path (path : String) : Bool :=
  (['/'].isSuffixOf path.data) || (['\\'].isSuffixOf path.data)

/-- Replacement performed by `re.sub(r'[/\\?#:*"<>|]', "-", s)` on one
character. -/
def sanitizeChar (c : Char) : Char :=
  if c = '/' ∨ c = '\\' ∨ c = '?' ∨ c = '#' ∨ c = ':' ∨ c = '*' ∨ c = '"'
      ∨ c = '<' ∨ c = '>' ∨ c = '|' then '-' else c

/-- Embedding of `re.sub(r"-+", "-", s)`: collapse each maximal run of
hyphens to a single hyphen. -/
def collapseDashes : List Char → List Char
  | [] => []
  | [c] => [c]
  | a :: b :: t =>
    if a = '-' ∧ b = '-' then collapseDashes (b :: t)
    else a :: collapseDashes (b :: t)

/-- Embedding of Python `s.strip("-")`. -/
def stripDashes (l : List Char) : List Char :=
  ((l.dropWhile (fun c => c = '-')).reverse.dropWhile (fun c => c = '-')).reverse

/-- File extension chosen by `generate_filename_from_url`; the Python
`else` default to `.md` is unreachable for the two-value enum. -/
def extensionChars : OutputFormat → List Char
  | .markdown => ['.', 'm', 'd']
  | .html => ['.', 'h', 't', 'm', 'l']

/-- Character-list body of `generate_filename_from_url`. -/
def generateFilenameChars (url : String) (fmt : OutputFormat) : List Char :=
  let parsed := urlparse url
  let pathParts := (splitOnChar '/' parsed.path).filter (fun p => p ≠ [])
  let baseName0 := match pathParts.getLast? with
    | some p => p
    | none => parsed.netloc.map (fun c => if c = '.' then '-' else c)
  let baseName1 := baseName0.map sanitizeChar
  let baseName2 := collapseDashes baseName1
  let baseName3 := stripDashes baseName2
  let baseName4 := baseName3.take 200
  baseName4 ++ extensionChars fmt

/-- Embedding of `generate_filename_from_url` from `src/lib/validators.py`:
last non-empty path segment (falling back to the host with `.` replaced by
`-`), sanitized, hyphen-collapsed, stripped, truncated to 200 characters,
plus the format extension. -/
def generate_filename_from_url (url : String) (fmt : OutputFormat) : String :=
  String.mk (generateFilenameChars url fmt)

/-! ## `src/models/scrape.py` -/

/-- `ScrapeMetadata`; timestamps are abstract ticks. -/
structure ScrapeMetadata where
  title : Option String
  description : Option String
  keywords : Option String
  source_url : String
  scraped_at : Nat
deriving Repr, DecidableEq

/-- `ScrapeResponse` field record. -/
structure ScrapeResponse where
  content : String
  format : OutputFormat
  metadata : ScrapeMetadata
  success : Bool
  error_message : Option String
deriving Repr, DecidableEq

/-- Construction of a `ScrapeResponse`, embedding the pydantic
`model_validator` `validate_error_message`: reject `success=False`
without an `error_message`. -/
def mkScrapeResponse (content : String) (format : OutputFormat)
    (metadata : ScrapeMetadata) (success : Bool)
    (error_message : Option String) : Except String ScrapeResponse :=
  if success = false ∧ error_message = none then
    .error ("error_message required when success=False")
  else
    .ok ⟨content, format, metadata, success, error_message⟩

/-! ## `src/models/article_content.py` -/

/-- Pydantic `HttpUrl` acceptance, modelled as: http/https scheme and a
non-empty host.  Only this part of pydantic's URL validation is relevant
to the claims. -/
def isHttpUrl (url : String) : Bool :=
  let p := urlparse url
  (p.scheme = ("http").data ∨ p.scheme = ("https").data) ∧ p.netloc ≠ []

/-- `ArticleContent` field record.  `word_count` is declared `int` in the
source with no lower bound, hence `Int` here. -/
structure ArticleContent where
  url : String
  title : String
  markdown : String
  detected_language : Option String
  word_count : Int
  crawl_timestamp : Nat
  metadata : Option (List (String × Option String))
deriving Repr, DecidableEq

/-- Construction of an `ArticleContent`: pydantic validates `url` as an
`HttpUrl`; no other field of the class carries a constraint beyond its
type (in particular `word_count` has no `ge=0` bound). -/
def mkArticleContent (url title markdown : String)
    (detected_language : Option String) (word_count : Int)
    (crawl_timestamp : Nat)
    (metadata : Option (List (String × Option String))) :
    Except String ArticleContent :=
  if isHttpUrl url then
    .ok ⟨url, title, markdown, detected_language, word_count, crawl_timestamp, metadata⟩
  else
    .error ("URL input should be a valid URL")

/-- `ArticleContent.is_minimal`. -/
def ArticleContent.is_minimal (a : ArticleContent) : Bool := a.word_count < 100

/-! ## `src/models/ai_model_config.py` -/

/-- `AIModelConfiguration` field record. -/
structure AIModelConfiguration where
  full_name : String
  provider : String
  model_name : String
  api_key_env_var : Option String
  is_local : Bool
deriving Repr, DecidableEq

/-- Embedding of the `full_name` field validator `validate_format`:
require a `/`, then exactly two non-empty parts under `split("/")`.  The
two rejection messages are distinct. -/
def validate_format (v : String) : Except String String :=
  if v.data.contains '/' = false then
    .error (String.mk (("Model name must be in format 'provider/model-name', got: ").data ++ v.data))
  else
    match splitOnChar '/' v.data with
    | [p, m] =>
      if p = [] ∨ m = [] then
        .error (String.mk (("Invalid model format. Expected 'provider/model-name', got: ").data ++ v.data))
      else .ok v
    | _ =>
      .error (String.mk (("Invalid model format. Expected 'provider/model-name', got: ").data ++ v.data))

/-- How `from_model_string` can fail: a pydantic validation error raised
by `validate_format` inside the constructor, or the plain `ValueError`
raised by the tuple unpacking `provider, model_name = s.split("/", 1)`
before the constructor runs. -/
inductive ParseFailure where
  | validation (msg : String)
  | unpack (msg : String)
deriving Repr, DecidableEq

/-- The `api_key_map` lookup of `from_model_string`: Python
`dict.get` returns `None` both for `ollama`/`vllm` (mapped to `None`)
and for providers absent from the table. -/
def apiKeyEnvVarFor (provider : String) : Option String :=
  if provider = ("gemini") then some ("GOOGLE_API_KEY")
  else if provider = ("openai") then some ("OPENAI_API_KEY")
  else if provider = ("anthropic") then some ("ANTHROPIC_API_KEY")
  else none

/-- Embedding of `AIModelConfiguration.from_model_string`:
`provider, model_name = model_string.split("/", 1)` (a `ValueError` when
there is no `/`), the provider table lookup, the `is_local` flag, and the
constructor call which re-validates `full_name` with `validate_format`. -/
def from_model_string (s : String) : Except ParseFailure AIModelConfiguration :=
  if s.data.contains '/' = false then
    .error (.unpack ("not enough values to unpack (expected 2, got 1)"))
  else
    let pm := splitOnFirst '/' s.data
    let provider := String.mk pm.1
    let model_name := String.mk pm.2
    let is_local := provider = ("ollama") ∨ provider = ("vllm")
    match validate_format s with
    | .error msg => .error (.validation msg)
    | .ok _ =>
      .ok ⟨s, provider, model_name, apiKeyEnvVarFor provider, is_local⟩

/-! ## `src/services/firecrawl.py` error classification -/

/-- The two failure kinds `FirecrawlService.scrape` can raise. -/
inductive ScrapeExcKind where
  | rateLimitError
  | firecrawlApiError
deriving Repr, DecidableEq

/-- A raised crawler exception: kind, message, CLI exit code. -/
structure ScrapeRaised where
  kind : ScrapeExcKind
  message : String
  code : Nat
deriving Repr, DecidableEq

/-- The rate-limit indicator of `FirecrawlService.scrape`:
`"429" in str(e) or "rate limit" in str(e).lower()`. -/
def scrapeRateIndicator (errStr : String) : Bool :=
  pyIn (("429").data) errStr.data || pyIn (("rate limit").data) (lowerChars errStr.data)

/-- Embedding of the `except Exception` handler of
`FirecrawlService.scrape`: `RateLimitError` (exit code 3) on the
rate-limit indicator, otherwise `FirecrawlApiError` (exit code 1)
wrapping the provider message. -/
def classifyScrapeError (errStr : String) : ScrapeRaised :=
  if scrapeRateIndicator errStr then
    ⟨.rateLimitError, ("Firecrawl API rate limit exceeded"), 3⟩
  else
    ⟨.firecrawlApiError, String.mk (("Failed to scrape URL: ").data ++ errStr.data), 1⟩

/-! ## `src/config/prompts.py` -/

/-- `BRIEF_PROMPT`. -/
def BRIEF_PROMPT : String := "You are a precise summarizer. Summarize the following article in 1-2 concise sentences, extracting only the core message.

IMPORTANT: Detect the language of the article and respond in the SAME language as the source content. For example:
- If the article is in Chinese, respond in Chinese
- If the article is in Japanese, respond in Japanese
- If the article is in English, respond in English

Focus on the most essential information and eliminate all secondary details."

/-- `STANDARD_PROMPT`. -/
def STANDARD_PROMPT : String := "You are a helpful summarizer. Summarize the following article in 3-5 key points, balancing breadth and depth.

IMPORTANT: Detect the language of the article and respond in the SAME language as the source content. For example:
- If the article is in Chinese, respond in Chinese
- If the article is in Japanese, respond in Japanese
- If the article is in English, respond in English

Capture the main topics, arguments, and conclusions while keeping the summary concise and readable."

/-- `DETAILED_PROMPT`. -/
def DETAILED_PROMPT : String := "You are a thorough summarizer. Provide a comprehensive summary with main sections, arguments, and supporting details.

IMPORTANT: Detect the language of the article and respond in the SAME language as the source content. For example:
- If the article is in Chinese, respond in Chinese
- If the article is in Japanese, respond in Japanese
- If the article is in English, respond in English

Include:
- Main thesis or purpose of the article
- Key sections and their main points
- Important arguments and evidence
- Significant conclusions or recommendations

Aim for a detailed but structured summary that gives readers a complete understanding without reading the full article."

/-! ## `src/services/ai_service.py` -/

/-- Embedding of `AIService._get_system_prompt`, i.e. the dictionary
lookup `prompts.get(length, STANDARD_PROMPT)`. -/
def get_system_prompt (length : String) : String :=
  if length = ("brief") then BRIEF_PROMPT
  else if length = ("standard") then STANDARD_PROMPT
  else if length = ("detailed") then DETAILED_PROMPT
  else STANDARD_PROMPT

/-- Embedding of `AIService._get_max_tokens`, i.e.
`token_limits.get(length, 300)`. -/
def get_max_tokens (length : String) : Nat :=
  if length = ("brief") then 100
  else if length = ("standard") then 300
  else if length = ("detailed") then 600
  else 300

/-- The completion provider's error surface as caught by
`AIService.summarize`; each constructor carries `str(e)`, and the
catch-all also carries `type(e).__name__`. -/
inductive LiteLLMException where
  | authError (msg : String)
  | rateLimitError (msg : String)
  | contextWindowExceeded (msg : String)
  | badRequestError (msg : String)
  | timeout (msg : String)
  | apiConnectionError (msg : String)
  | otherError (typeName msg : String)
deriving Repr, DecidableEq

/-- The exception kinds `AIService.summarize` can raise. -/
inductive AIExcKind where
  | aiServiceError
  | rateLimitExceededError
  | tokenLimitExceededError
  | modelNotFoundError
deriving Repr, DecidableEq

/-- A raised AI-service exception: kind, message, CLI exit code and the
`details` dictionary. -/
structure AIRaised where
  kind : AIExcKind
  message : String
  code : Nat
  details : List (String × String)
deriving Repr, DecidableEq

/-- Python `f"{x}"` rendering of an optional string: `None` when absent. -/
def pyStrOpt : Option String → String
  | some s => s
  | none => ("None")

/-- The model-not-found test of the `BadRequestError` handler:
`"model" in str(e).lower() or "not found" in str(e).lower()`. -/
def mentionsModelOrNotFound (msg : String) : Bool :=
  pyIn (("model").data) (lowerChars msg.data) || pyIn (("not found").data) (lowerChars msg.data)

/-- Embedding of the `except` chain of `AIService.summarize`, the
completion adapter's whole error classification.  Arguments mirror the
data the handlers read: `config.provider`, `config.api_key_env_var`,
`config.full_name` and `article.word_count`. -/
def classifySummarizeError (provider : String) (apiKeyEnvVar : Option String)
    (fullName : String) (wordCount : Int) (e : LiteLLMException) : AIRaised :=
  match e with
  | .authError _ =>
    ⟨.aiServiceError,
      String.mk (("Missing or invalid API key for ").data ++ provider.data
        ++ (". Please set ").data ++ (pyStrOpt apiKeyEnvVar).data
        ++ (" in your .env file.").data),
      2, [(("provider"), provider), (("model"), fullName)]⟩
  | .rateLimitError _ =>
    ⟨.rateLimitExceededError,
      String.mk (("Rate limit exceeded for ").data ++ provider.data
        ++ (". Please try again later.").data),
      3, [(("provider"), provider), (("model"), fullName)]⟩
  | .contextWindowExceeded _ =>
    ⟨.tokenLimitExceededError,
      String.mk (("Article is too long for ").data ++ fullName.data
        ++ (" context window. Try using 'brief' summary mode or a model with larger context.").data),
      3, [(("model"), fullName), (("article_word_count"), toString wordCount)]⟩
  | .badRequestError msg =>
    if mentionsModelOrNotFound msg then
      ⟨.modelNotFoundError,
        String.mk (("Model '").data ++ fullName.data ++ ("' not found or not supported.").data),
        2, [(("model"), fullName), (("provider"), provider)]⟩
    else
      ⟨.aiServiceError,
        String.mk (("Invalid request to AI service: ").data ++ msg.data),
        3, [(("model"), fullName)]⟩
  | .timeout msg =>
    ⟨.aiServiceError,
      String.mk (("Network error connecting to ").data ++ provider.data
        ++ (". Please check your connection.").data),
      3, [(("provider"), provider), (("error"), msg)]⟩
  | .apiConnectionError msg =>
    ⟨.aiServiceError,
      String.mk (("Network error connecting to ").data ++ provider.data
        ++ (". Please check your connection.").data),
      3, [(("provider"), provider), (("error"), msg)]⟩
  | .otherError typeName msg =>
    ⟨.aiServiceError,
      String.mk (("Unexpected error during summarization: ").data ++ msg.data),
      3, [(("model"), fullName), (("error_type"), typeName)]⟩

/-! ## A small embedding of `pathlib.PurePosixPath`, as used by
`src/cli/summarize.py` (`Path(output)`, `.parent`, `.stem`, `.suffix`,
`/`).  Paths are normalized the way `PurePosixPath` normalizes them:
empty and `.` segments are dropped; the POSIX double-slash special case
is not modelled (no claim touches it). -/

/-- The retained segments of a path string. -/
def normSegs (s : String) : List (List Char) :=
  (splitOnChar '/' s.data).filter (fun seg => seg ≠ [] ∧ seg ≠ ['.'])

/-- Whether a path string is absolute. -/
def isAbsPath (s : String) : Bool :=
  match s.data with
  | '/' :: _ => true
  | _ => false

/-- Reassemble segments into the `str()` of the path: `.` for an empty
relative path, `/` for the root. -/
def joinSegsChars (abs : Bool) (segs : List (List Char)) : List Char :=
  let body := (segs.intersperse ['/']).flatten
  if abs then '/' :: body
  else if body = [] then ['.']
  else body

/-- `str(Path(s))`. -/
def pyPathStr (s : String) : String :=
  String.mk (joinSegsChars (isAbsPath s) (normSegs s))

/-- `Path(s).name` (empty for `/` and `.`). -/
def pathNameChars (s : String) : List Char :=
  ((normSegs s).getLast?).getD []

/-- Split a name around its last dot, when it has one. -/
def lastDotSplit (n : List Char) : Option (List Char × List Char) :=
  let revAfter := n.reverse.takeWhile (fun c => c ≠ '.')
  if revAfter.length = n.length then none
  else some (n.take (n.length - revAfter.length - 1), revAfter.reverse)

/-- `Path(s).suffix`: the part of the name from its last dot on, provided
that dot is neither the first nor the last character of the name. -/
def pathSuffixChars (s : String) : List Char :=
  let n := pathNameChars s
  match lastDotSplit n with
  | none => []
  | some pr => if pr.1 ≠ [] ∧ pr.2 ≠ [] then '.' :: pr.2 else []

/-- `Path(s).stem`: the name up to its last dot under the same proviso,
otherwise the whole name. -/
def pathStemChars (s : String) : List Char :=
  let n := pathNameChars s
  match lastDotSplit n with
  | none => n
  | some pr => if pr.1 ≠ [] ∧ pr.2 ≠ [] then pr.1 else n

/-- `str(Path(s).parent)`. -/
def pathParentStr (s : String) : String :=
  String.mk (joinSegsChars (isAbsPath s) ((normSegs s).dropLast))

/-- `str(parent / name)` for a plain file name. -/
def pathJoinName (parent : String) (name : List Char) : String :=
  pyPathStr (String.mk (parent.data ++ '/' :: name))

/-! ## The dual-write branch of `src/cli/summarize.py` (step 3 with
`--save-original` and an output target) -/

/-- The directory-branch base name: `article.title.replace(" ", "-").lower()[:50]`. -/
def title_base_name (title : String) : List Char :=
  (lowerChars (title.data.map (fun c => if c = ' ' then '-' else c))).take 50

/-- The write plan of the `save_original` branch of the `summarize`
command, as ordered `(path, content)` pairs.  `isDir` is the value of
the code's classification condition
`output_path.is_dir() or str(output_path).endswith("/") or str(output_path).endswith("\\")`
(its first disjunct is a filesystem probe, taken here as an input).
Directory targets get title-derived names; file targets get the original
at the given path and the summary at
`output_path.parent / (stem + "-summary" + suffix)`. -/
def summarizeDualWrite (isDir : Bool) (title markdown summaryText : String)
    (output : String) : List (String × String) :=
  let outputPath := pyPathStr output
  if isDir then
    let base := title_base_name title
    [ (pathJoinName outputPath (base ++ (".md").data), markdown),
      (pathJoinName outputPath (base ++ ("-summary.md").data), summaryText) ]
  else
    let summaryPath := pathJoinName (pathParentStr output)
      (pathStemChars output ++ ("-summary").data ++ pathSuffixChars output)
    [ (outputPath, markdown), (summaryPath, summaryText) ]

/-! ## Helper lemmas -/

theorem startsWithL_self_append (n rest : List Char) : startsWithL n (n ++ rest) = true := by
  induction n with
  | nil => cases rest <;> simp [startsWithL]
  | cons a as ih => simp [startsWithL, ih]

theorem pyIn_of_startsWithL (n h : List Char) (hs : startsWithL n h = true) :
    pyIn n h = true := by
  cases h with
  | nil =>
    cases n with
    | nil => rfl
    | cons a as => simp [startsWithL] at hs
  | cons b bs => simp [pyIn, hs]

theorem pyIn_append_left (pre n h : List Char) (hp : pyIn n h = true) :
    pyIn n (pre ++ h) = true := by
  induction pre with
  | nil => simpa using hp
  | cons p ps ih => simp [pyIn, ih]

theorem pyIn_sandwich (a n b : List Char) : pyIn n (a ++ (n ++ b)) = true :=
  pyIn_append_left a n (n ++ b) (pyIn_of_startsWithL n (n ++ b) (startsWithL_self_append n b))

theorem mem_collapseDashes : ∀ (l : List Char) (c : Char), c ∈ collapseDashes l → c ∈ l := by
  intro l
  induction l with
  | nil => simp [collapseDashes]
  | cons a t ih =>
    cases t with
    | nil => simp [collapseDashes]
    | cons b t2 =>
      intro c hc
      rw [collapseDashes] at hc
      split at hc
      · exact List.mem_cons_of_mem a (ih c hc)
      · rcases List.mem_cons.mp hc with h | h
        · exact h ▸ List.mem_cons_self a (b :: t2)
        · exact List.mem_cons_of_mem a (ih c h)

theorem mem_stripDashes (l : List Char) (c : Char) (hc : c ∈ stripDashes l) : c ∈ l := by
  unfold stripDashes at hc
  rw [List.mem_reverse] at hc
  have h1 := (List.dropWhile_sublist (l := (l.dropWhile (fun c => c = '-')).reverse)
    (p := fun c => c = '-')).subset hc
  rw [List.mem_reverse] at h1
  exact (List.dropWhile_sublist (l := l) (p := fun c => c = '-')).subset h1

/-- The characters the claim asserts never to appear in a derived filename. -/
def bannedOut (c : Char) : Bool :=
  decide (c = '?' ∨ c = '#' ∨ c = ':' ∨ c = '*' ∨ c = '"' ∨ c = '<' ∨ c = '>' ∨ c = '|')

theorem bannedOut_sanitizeChar (c : Char) : bannedOut (sanitizeChar c) = false := by
  unfold sanitizeChar
  split
  · decide
  · rename_i h
    rw [bannedOut, decide_eq_false_iff_not]
    intro hc
    apply h
    tauto

theorem bannedOut_false_of_mem_genChars (url : String) (fmt : OutputFormat) (c : Char)
    (hc : c ∈ generateFilenameChars url fmt) : bannedOut c = false := by
  unfold generateFilenameChars at hc
  rcases List.mem_append.mp hc with h | h
  · have h3 := (List.take_sublist 200 _).subset h
    have h2 := mem_stripDashes _ c h3
    have h1 := mem_collapseDashes _ c h2
    rcases List.mem_map.mp h1 with ⟨c0, _, hc0⟩
    exact hc0 ▸ bannedOut_sanitizeChar c0
  · cases fmt with
    | markdown =>
      simp only [extensionChars] at h
      rcases List.mem_cons.mp h with h | h
      · subst h; decide
      rcases List.mem_cons.mp h with h | h
      · subst h; decide
      rcases List.mem_cons.mp h with h | h
      · subst h; decide
      · simp at h
    | html =>
      simp only [extensionChars] at h
      rcases List.mem_cons.mp h with h | h
      · subst h; decide
      rcases List.mem_cons.mp h with h | h
      · subst h; decide
      rcases List.mem_cons.mp h with h | h
      · subst h; decide
      rcases List.mem_cons.mp h with h | h
      · subst h; decide
      rcases List.mem_cons.mp h with h | h
      · subst h; decide
      · simp at h

theorem genChars_length_le (url : String) (fmt : OutputFormat) :
    (generateFilenameChars url fmt).length ≤ 205 := by
  have htake : ∀ l : List Char, (l.take 200).length ≤ 200 := by
    intro l
    rw [List.length_take]
    exact min_le_left _ _
  have h2 : (extensionChars fmt).length ≤ 5 := by
    cases fmt <;> decide
  unfold generateFilenameChars
  rw [List.length_append]
  have h1 := htake (stripDashes (collapseDashes (List.map sanitizeChar
    (match (List.filter (fun p => decide (p ≠ [])) (splitOnChar '/' (urlparse url).path)).getLast? with
     | some p => p
     | none => List.map (fun c => if c = '.' then '-' else c) (urlparse url).netloc))))
  omega

theorem singleton_isSuffixOf_iff (c : Char) (l : List Char) :
    ([c].isSuffixOf l = true) ↔ l.getLast? = some c := by
  rw [← List.head?_reverse]
  unfold List.isSuffixOf
  rw [List.reverse_singleton]
  cases l.reverse with
  | nil => simp [List.isPrefixOf]
  | cons b bs =>
    simp [List.isPrefixOf]
    exact eq_comm

/-! ## Claim theorems -/

/-- C8: `validate_output_path` is a total function on strings returning
`true` (directory) exactly when the path ends with `/` or `\`, and
`false` for every other string, the empty string included; being a Lean
function it is deterministic and cannot raise. -/
theorem C8_classify_output_path :
    ∀ path : String,
      (validate_output_path path = true ↔
        (path.data.getLast? = some '/' ∨ path.data.getLast? = some '\\')) ∧
      validate_output_path ("") = false := by
  intro path
  refine ⟨?_, by decide⟩
  unfold validate_output_path
  rw [Bool.or_eq_true, singleton_isSuffixOf_iff, singleton_isSuffixOf_iff]

/-- C4: constructing a `ScrapeResponse` with `success=False` and no
`error_message` always fails the `validate_error_message` model
validator, and always succeeds when an `error_message` is present. -/
theorem C4_scrape_response_requires_error_message :
    ∀ (content : String) (format : OutputFormat) (metadata : ScrapeMetadata),
      (mkScrapeResponse content format metadata false none
        = .error ("error_message required when success=False")) ∧
      (∀ m : String, mkScrapeResponse content format metadata false (some m)
        = .ok ⟨content, format, metadata, false, some m⟩) := by
  intro c f m
  exact ⟨by simp [mkScrapeResponse], fun msg => by simp [mkScrapeResponse]⟩

/-- C5 counterexample: a `ScrapeResponse` with `success=True` and a
present `error_message` is accepted by construction, contradicting the
claim that no such response can be constructed. -/
theorem C5_counterexample :
    mkScrapeResponse ("content") OutputFormat.markdown
      ⟨none, none, none, ("https://example.com"), 0⟩ true (some ("boom"))
      = .ok ⟨("content"), OutputFormat.markdown,
          ⟨none, none, none, ("https://example.com"), 0⟩, true, some ("boom")⟩ := by
  rfl

/-- C5 (amended): the construction-time validator of `ScrapeResponse`
only enforces the `success=False` direction; every response with
`success=True` is accepted unchanged, whether or not `error_message` is
present. -/
theorem C5_success_true_never_rejected :
    ∀ (content : String) (format : OutputFormat) (metadata : ScrapeMetadata)
      (em : Option String),
      mkScrapeResponse content format metadata true em
        = .ok ⟨content, format, metadata, true, em⟩ := by
  intro c f m em
  simp [mkScrapeResponse]

/-- C9 counterexample: an `ArticleContent` with `word_count = -5` is
accepted by construction, contradicting the claim that a negative
`word_count` fails validation. -/
theorem C9_counterexample :
    mkArticleContent ("https://example.com/article") ("Test") ("Content")
      none (-5) 0 none
      = .ok ⟨("https://example.com/article"), ("Test"), ("Content"),
          none, (-5), 0, none⟩ := by
  rfl

/-- C9 (amended): `ArticleContent` construction validates only the URL
shape; `word_count` is a plain `int` field with no lower bound, so any
integer — negative values included — is stored unchanged. -/
theorem C9_word_count_unconstrained :
    ∀ (url title md : String) (lang : Option String) (wc : Int) (ts : Nat)
      (meta : Option (List (String × Option String))),
      isHttpUrl url = true →
      mkArticleContent url title md lang wc ts meta
        = .ok ⟨url, title, md, lang, wc, ts, meta⟩ := by
  intro url title md lang wc ts meta h
  simp [mkArticleContent, h]

/-- C9 witness: the amended theorem applied at a negative word count. -/
theorem C9_word_count_unconstrained_witness :
    isHttpUrl ("https://example.com/a") = true ∧
    mkArticleContent ("https://example.com/a") ("T") ("C") none (-7) 0 none
      = .ok ⟨("https://example.com/a"), ("T"), ("C"), none, (-7), 0, none⟩ :=
  ⟨by decide, C9_word_count_unconstrained ("https://example.com/a") ("T") ("C")
    none (-7) 0 none (by decide)⟩

/-- C10: for any summary-length string outside `brief`/`standard`/`detailed`
the adapter raises no error: the prompt lookup falls back to
`STANDARD_PROMPT` and the token lookup to `300`, exactly the values the
`standard` mode selects. -/
theorem C10_unknown_length_defaults_to_standard :
    ∀ length : String,
      length ≠ ("brief") → length ≠ ("standard") → length ≠ ("detailed") →
      get_system_prompt length = STANDARD_PROMPT ∧
      get_system_prompt length = get_system_prompt ("standard") ∧
      get_max_tokens length = 300 ∧
      get_max_tokens length = get_max_tokens ("standard") := by
  intro l h1 h2 h3
  refine ⟨?_, ?_, ?_, ?_⟩ <;> simp [get_system_prompt, get_max_tokens, h1, h2, h3]

/-- C10 witness: the default behavior at the unknown length `verbose`. -/
theorem C10_unknown_length_witness :
    get_system_prompt ("verbose") = STANDARD_PROMPT ∧
    get_max_tokens ("verbose") = 300 :=
  ⟨(C10_unknown_length_defaults_to_standard ("verbose")
      (by decide) (by decide) (by decide)).1,
   (C10_unknown_length_defaults_to_standard ("verbose")
      (by decide) (by decide) (by decide)).2.2.1⟩

theorem pyIn_self_append (n b : List Char) : pyIn n (n ++ b) = true :=
  pyIn_of_startsWithL n (n ++ b) (startsWithL_self_append n b)

theorem pyIn_sandwichL (a n b : List Char) : pyIn n (a ++ n ++ b) = true := by
  rw [List.append_assoc]
  exact pyIn_sandwich a n b

/-- C3: `FirecrawlService.scrape` failure classification.  When the
provider error's string contains `429` or, case-insensitively,
`rate limit`, the raised failure is `RateLimitError` with exit code 3;
every other provider failure raises `FirecrawlApiError` with exit code 1
and a message wrapping the provider's message. -/
theorem C3_scrape_error_classification :
    ∀ errStr : String,
      (scrapeRateIndicator errStr = true →
        classifyScrapeError errStr
          = ⟨.rateLimitError, ("Firecrawl API rate limit exceeded"), 3⟩) ∧
      (scrapeRateIndicator errStr = false →
        (classifyScrapeError errStr).kind = .firecrawlApiError ∧
        (classifyScrapeError errStr).code = 1 ∧
        (classifyScrapeError errStr).message
          = String.mk (("Failed to scrape URL: ").data ++ errStr.data) ∧
        pyIn errStr.data (classifyScrapeError errStr).message.data = true) ∧
      (scrapeRateIndicator errStr
        = (pyIn (("429").data) errStr.data
            || pyIn (("rate limit").data) (lowerChars errStr.data))) := by
  intro e
  refine ⟨fun h => by simp [classifyScrapeError, h], fun h => ?_, rfl⟩
  refine ⟨by simp [classifyScrapeError, h], by simp [classifyScrapeError, h],
    by simp [classifyScrapeError, h], ?_⟩
  simp only [classifyScrapeError, h, Bool.false_eq_true, if_false]
  have := pyIn_sandwich (("Failed to scrape URL: ").data) e.data []
  rwa [List.append_nil] at this

/-- C3 witness: the theorem applied to a 429-style error and to a plain
network error. -/
theorem C3_scrape_error_classification_witness :
    classifyScrapeError ("Request failed with status 429")
      = ⟨.rateLimitError, ("Firecrawl API rate limit exceeded"), 3⟩ ∧
    (classifyScrapeError ("connection refused")).kind = .firecrawlApiError ∧
    (classifyScrapeError ("connection refused")).code = 1 :=
  ⟨(C3_scrape_error_classification ("Request failed with status 429")).1 (by decide),
   ((C3_scrape_error_classification ("connection refused")).2.1 (by decide)).1,
   ((C3_scrape_error_classification ("connection refused")).2.1 (by decide)).2.1⟩

/-- C2: the full failure classification of `AIService.summarize`.
Authentication errors raise `AIServiceError` with exit code 2 naming the
provider and its API-key environment variable; rate limits raise
`RateLimitExceededError` (3); context-window errors raise
`TokenLimitExceededError` (3) suggesting brief mode or a larger-context
model; bad requests mentioning `model` or `not found` raise
`ModelNotFoundError` (2), other bad requests a generic `AIServiceError`
(3); timeouts and connection failures raise `AIServiceError` (3) with a
network message; anything else raises `AIServiceError` (3) wrapping the
original message and carrying the error type. -/
theorem C2_summarize_error_classification :
    ∀ (provider : String) (envVar : Option String) (fullName : String) (wc : Int)
      (msg typeName : String),
      ((classifySummarizeError provider envVar fullName wc (.authError msg)).kind
          = .aiServiceError ∧
        (classifySummarizeError provider envVar fullName wc (.authError msg)).code = 2 ∧
        pyIn provider.data
          (classifySummarizeError provider envVar fullName wc (.authError msg)).message.data
          = true ∧
        pyIn (pyStrOpt envVar).data
          (classifySummarizeError provider envVar fullName wc (.authError msg)).message.data
          = true) ∧
      ((classifySummarizeError provider envVar fullName wc (.rateLimitError msg)).kind
          = .rateLimitExceededError ∧
        (classifySummarizeError provider envVar fullName wc (.rateLimitError msg)).code = 3) ∧
      ((classifySummarizeError provider envVar fullName wc (.contextWindowExceeded msg)).kind
          = .tokenLimitExceededError ∧
        (classifySummarizeError provider envVar fullName wc (.contextWindowExceeded msg)).code
          = 3 ∧
        pyIn (("'brief' summary mode").data)
          (classifySummarizeError provider envVar fullName wc
            (.contextWindowExceeded msg)).message.data = true ∧
        pyIn (("model with larger context").data)
          (classifySummarizeError provider envVar fullName wc
            (.contextWindowExceeded msg)).message.data = true) ∧
      (mentionsModelOrNotFound msg = true →
        (classifySummarizeError provider envVar fullName wc (.badRequestError msg)).kind
          = .modelNotFoundError ∧
        (classifySummarizeError provider envVar fullName wc (.badRequestError msg)).code = 2) ∧
      (mentionsModelOrNotFound msg = false →
        (classifySummarizeError provider envVar fullName wc (.badRequestError msg)).kind
          = .aiServiceError ∧
        (classifySummarizeError provider envVar fullName wc (.badRequestError msg)).code = 3) ∧
      ((classifySummarizeError provider envVar fullName wc (.timeout msg)).kind
          = .aiServiceError ∧
        (classifySummarizeError provider envVar fullName wc (.timeout msg)).code = 3 ∧
        pyIn (("Network error connecting to ").data)
          (classifySummarizeError provider envVar fullName wc (.timeout msg)).message.data
          = true) ∧
      ((classifySummarizeError provider envVar fullName wc (.apiConnectionError msg)).kind
          = .aiServiceError ∧
        (classifySummarizeError provider envVar fullName wc (.apiConnectionError msg)).code
          = 3 ∧
        pyIn (("Network error connecting to ").data)
          (classifySummarizeError provider envVar fullName wc
            (.apiConnectionError msg)).message.data = true) ∧
      ((classifySummarizeError provider envVar fullName wc (.otherError typeName msg)).kind
          = .aiServiceError ∧
        (classifySummarizeError provider envVar fullName wc (.otherError typeName msg)).code
          = 3 ∧
        pyIn msg.data
          (classifySummarizeError provider envVar fullName wc
            (.otherError typeName msg)).message.data = true ∧
        ((("error_type"), typeName) ∈
          (classifySummarizeError provider envVar fullName wc
            (.otherError typeName msg)).details)) := by
  intro provider envVar fullName wc msg typeName
  refine ⟨⟨rfl, rfl, ?_, ?_⟩, ⟨rfl, rfl⟩, ⟨rfl, rfl, ?_, ?_⟩, fun h => ?_, fun h => ?_,
    ⟨rfl, rfl, ?_⟩, ⟨rfl, rfl, ?_⟩, ⟨rfl, rfl, ?_, ?_⟩⟩
  · simp only [classifySummarizeError, List.append_assoc]
    exact pyIn_sandwich _ _ _
  · simp only [classifySummarizeError, List.append_assoc]
    exact pyIn_append_left _ _ _ (pyIn_append_left _ _ _ (pyIn_append_left _ _ _
      (pyIn_self_append _ _)))
  · simp only [classifySummarizeError, List.append_assoc]
    exact pyIn_append_left _ _ _ (pyIn_append_left _ _ _ (by decide))
  · simp only [classifySummarizeError, List.append_assoc]
    exact pyIn_append_left _ _ _ (pyIn_append_left _ _ _ (by decide))
  · exact ⟨by simp [classifySummarizeError, h], by simp [classifySummarizeError, h]⟩
  · exact ⟨by simp [classifySummarizeError, h], by simp [classifySummarizeError, h]⟩
  · simp only [classifySummarizeError, List.append_assoc]
    exact pyIn_self_append _ _
  · simp only [classifySummarizeError, List.append_assoc]
    exact pyIn_self_append _ _
  · simp only [classifySummarizeError]
    have := pyIn_sandwich (("Unexpected error during summarization: ").data) msg.data []
    rw [List.append_nil] at this
    simpa using this
  · simp [classifySummarizeError]

/-- C2 witness: the bad-request branches of the theorem at concrete
messages. -/
theorem C2_summarize_error_classification_witness :
    mentionsModelOrNotFound ("model xyz") = true ∧
    (classifySummarizeError ("gemini") (some ("GOOGLE_API_KEY")) ("gemini/gemini-pro") 5
      (.badRequestError ("model xyz"))).kind = .modelNotFoundError ∧
    mentionsModelOrNotFound ("bad payload") = false ∧
    (classifySummarizeError ("gemini") (some ("GOOGLE_API_KEY")) ("gemini/gemini-pro") 5
      (.badRequestError ("bad payload"))).code = 3 :=
  ⟨by decide,
   ((C2_summarize_error_classification ("gemini") (some ("GOOGLE_API_KEY"))
      ("gemini/gemini-pro") 5 ("model xyz") ("E")).2.2.2.1 (by decide)).1,
   by decide,
   ((C2_summarize_error_classification ("gemini") (some ("GOOGLE_API_KEY"))
      ("gemini/gemini-pro") 5 ("bad payload") ("E")).2.2.2.2.1 (by decide)).2⟩

theorem splitOnChar_ne_nil (sep : Char) (l : List Char) : splitOnChar sep l ≠ [] := by
  cases l with
  | nil => simp [splitOnChar]
  | cons c t =>
    rw [splitOnChar]
    split
    · simp
    · cases hs : splitOnChar sep t with
      | nil => simp
      | cons h r => simp

theorem length_splitOnChar (sep : Char) :
    ∀ l : List Char, (splitOnChar sep l).length = l.count sep + 1 := by
  intro l
  induction l with
  | nil => simp [splitOnChar]
  | cons c t ih =>
    rw [splitOnChar]
    by_cases hc : c = sep
    · rw [if_pos hc]
      simp only [List.length_cons, ih, List.count_cons]
      simp [hc]
    · rw [if_neg hc]
      cases hs : splitOnChar sep t with
      | nil => exact absurd hs (splitOnChar_ne_nil sep t)
      | cons h r =>
        rw [hs] at ih
        simp only [List.length_cons] at ih
        simp only [List.length_cons, List.count_cons]
        simp [hc]
        omega

/-- C6 counterexample: through `from_model_string`, a separator-free
input fails with the plain `ValueError` of the tuple unpacking
`provider, model_name = model_string.split("/", 1)` — not with a
validation failure stating the `provider/model-name` format, which the
claim asserts. -/
theorem C6_counterexample :
    from_model_string ("gemini-pro")
      = .error (.unpack ("not enough values to unpack (expected 2, got 1)")) := by
  rfl

/-- C6 (amended): the field validator `validate_format` rejects a
separator-free input with the message stating the
`provider/model-name` format, while `from_model_string` rejects it
earlier with the tuple-unpack `ValueError`; inputs with two or more `/`
separators are rejected by `from_model_string` with the distinct
invalid-format validation message, as are inputs with exactly one `/`
but an empty provider or model part; the two rejection messages are
distinct. -/
theorem C6_model_string_rejections :
    ∀ v : String,
      (v.data.count '/' = 0 →
        validate_format v = .error (String.mk
          (("Model name must be in format 'provider/model-name', got: ").data ++ v.data)) ∧
        from_model_string v
          = .error (.unpack ("not enough values to unpack (expected 2, got 1)"))) ∧
      (2 ≤ v.data.count '/' →
        from_model_string v = .error (.validation (String.mk
          (("Invalid model format. Expected 'provider/model-name', got: ").data ++ v.data)))) ∧
      (∀ p m : List Char, splitOnChar '/' v.data = [p, m] → (p = [] ∨ m = []) →
        from_model_string v = .error (.validation (String.mk
          (("Invalid model format. Expected 'provider/model-name', got: ").data ++ v.data)))) ∧
      (String.mk (("Model name must be in format 'provider/model-name', got: ").data ++ v.data)
        ≠ String.mk
          (("Invalid model format. Expected 'provider/model-name', got: ").data ++ v.data)) := by
  intro v
  refine ⟨fun h0 => ?_, fun h2 => ?_, fun p m hsplit hempty => ?_, ?_⟩
  · have hc : v.data.contains '/' = false := by
      simp [List.count_eq_zero] at h0
      simpa using h0
    constructor
    · unfold validate_format
      rw [hc]
      simp
    · unfold from_model_string
      rw [hc]
      simp
  · have hm : '/' ∈ v.data := by
      have hpos : 0 < v.data.count '/' := by omega
      exact List.count_pos_iff.mp hpos
    have hc : v.data.contains '/' = true := by simpa using hm
    have hvf : validate_format v = .error (String.mk
        (("Invalid model format. Expected 'provider/model-name', got: ").data ++ v.data)) := by
      unfold validate_format
      rw [hc]
      simp only [Bool.true_eq_false, if_false]
      split
      · rename_i q r heq
        exfalso
        have hl := length_splitOnChar '/' v.data
        rw [heq] at hl
        simp at hl
        omega
      · rfl
    unfold from_model_string
    rw [hc]
    simp [hvf]
  · have hm : '/' ∈ v.data := by
      have hl := length_splitOnChar '/' v.data
      rw [hsplit] at hl
      simp at hl
      have hpos : 0 < v.data.count '/' := by omega
      exact List.count_pos_iff.mp hpos
    have hc : v.data.contains '/' = true := by simpa using hm
    have hvf : validate_format v = .error (String.mk
        (("Invalid model format. Expected 'provider/model-name', got: ").data ++ v.data)) := by
      unfold validate_format
      rw [hc]
      simp only [Bool.true_eq_false, if_false]
      rw [hsplit]
      rcases hempty with h | h <;> simp [h]
    unfold from_model_string
    rw [hc]
    simp [hvf]
  · intro h
    have h1 : (String.mk
        (("Model name must be in format 'provider/model-name', got: ").data
          ++ v.data)).data.head? = some 'M' := rfl
    rw [h] at h1
    have h2 : (String.mk
        (("Invalid model format. Expected 'provider/model-name', got: ").data
          ++ v.data)).data.head? = some 'I' := rfl
    rw [h2] at h1
    exact absurd h1 (by decide)

/-- C6 witness: the amended theorem at a separator-free input, a
two-separator input and an empty-provider input. -/
theorem C6_model_string_rejections_witness :
    validate_format ("gemini-pro") = .error (String.mk
      (("Model name must be in format 'provider/model-name', got: ").data
        ++ ("gemini-pro").data)) ∧
    from_model_string ("a/b/c") = .error (.validation (String.mk
      (("Invalid model format. Expected 'provider/model-name', got: ").data
        ++ ("a/b/c").data))) ∧
    from_model_string ("/x") = .error (.validation (String.mk
      (("Invalid model format. Expected 'provider/model-name', got: ").data
        ++ ("/x").data))) :=
  ⟨((C6_model_string_rejections ("gemini-pro")).1 (by decide)).1,
   (C6_model_string_rejections ("a/b/c")).2.1 (by decide),
   (C6_model_string_rejections ("/x")).2.2.1 [] ['x'] (by decide) (Or.inl rfl)⟩

/-- A URL whose final path segment has 201 characters, so that the
truncated 200-character base name plus `.html` yields 205 characters. -/
def C7cexUrl : String := String.mk (("https://example.com/").data ++ List.replicate 201 'a')

set_option maxRecDepth 4096 in
/-- C7 counterexample: a derived filename of 205 characters, exceeding
the claimed bound of 204 — the truncation keeps 200 characters and the
`.html` extension adds five more, so the tight bound is 205. -/
theorem C7_counterexample :
    204 < (generate_filename_from_url C7cexUrl OutputFormat.html).length := by
  decide

/-- C7 (amended): `DeriveFilenameFromUrl` is a pure function (a Lean
`def`); both example equalities of the claim hold; none of the
characters `? # : * " < > |` ever appears in a derived filename; and the
length of a derived filename is at most 205 characters — 200 for the
truncated base plus up to five for `.html` — rather than the claimed
204. -/
theorem C7_filename_derivation :
    (generate_filename_from_url ("https://docs.example.com/a/b-name") OutputFormat.markdown
      = ("b-name.md")) ∧
    (generate_filename_from_url ("https://example.com/") OutputFormat.markdown
      = ("example-com.md")) ∧
    (∀ (url : String) (fmt : OutputFormat) (c : Char),
      (c = '?' ∨ c = '#' ∨ c = ':' ∨ c = '*' ∨ c = '"' ∨ c = '<' ∨ c = '>' ∨ c = '|') →
      c ∉ (generate_filename_from_url url fmt).data) ∧
    (∀ (url : String) (fmt : OutputFormat),
      (generate_filename_from_url url fmt).length ≤ 205) := by
  refine ⟨by decide, by decide, ?_, ?_⟩
  · intro url fmt c hc hmem
    have hb : bannedOut c = true := by
      rcases hc with h | h | h | h | h | h | h | h <;> (subst h; decide)
    have hf : bannedOut c = false :=
      bannedOut_false_of_mem_genChars url fmt c hmem
    rw [hb] at hf
    exact absurd hf (by decide)
  · intro url fmt
    exact genChars_length_le url fmt

/-- C7 witness: the universal parts of the amended theorem at the first
example URL and the character `?`. -/
theorem C7_filename_derivation_witness :
    ('?' ∉ (generate_filename_from_url ("https://docs.example.com/a/b-name")
      OutputFormat.markdown).data) ∧
    (generate_filename_from_url ("https://docs.example.com/a/b-name")
      OutputFormat.markdown).length ≤ 205 :=
  ⟨C7_filename_derivation.2.2.1 ("https://docs.example.com/a/b-name")
      OutputFormat.markdown '?' (Or.inl rfl),
   C7_filename_derivation.2.2.2 ("https://docs.example.com/a/b-name")
      OutputFormat.markdown⟩

/-- C1 counterexample: with the file target `out.md`, the code writes
the original markdown to `out.md` and the summary to `out-summary.md`;
the claim asserts the reverse assignment (summary at the exact path,
original at the derived `-summary` path), which is therefore false. -/
theorem C1_counterexample :
    summarizeDualWrite false ("T") ("ORIGINAL") ("SUMMARY") ("out.md")
      ≠ [(("out.md"), ("SUMMARY")), (("out-summary.md"), ("ORIGINAL"))] ∧
    summarizeDualWrite false ("T") ("ORIGINAL") ("SUMMARY") ("out.md")
      = [(("out.md"), ("ORIGINAL")), (("out-summary.md"), ("SUMMARY"))] := by
  exact ⟨by decide, by decide⟩

/-- C1 (amended): in the dual-write mode, when the target is classified
as a file path the ORIGINAL article markdown is written to exactly the
given path and the SUMMARY to the same path with `-summary` inserted
before the file extension (the roles are the opposite of the claim's);
when the target is classified as a directory, the original goes to
`{base}.md` and the summary to `{base}-summary.md` under the target,
where `base` is the article title with spaces replaced by `-`,
lowercased, and truncated to 50 characters. -/
theorem C1_dual_write_assignment :
    ∀ (title markdown summaryText output : String),
      (summarizeDualWrite false title markdown summaryText output
        = [(pyPathStr output, markdown),
           (pathJoinName (pathParentStr output)
             (pathStemChars output ++ ("-summary").data ++ pathSuffixChars output),
            summaryText)]) ∧
      (summarizeDualWrite true title markdown summaryText output
        = [(pathJoinName (pyPathStr output) (title_base_name title ++ (".md").data),
            markdown),
           (pathJoinName (pyPathStr output) (title_base_name title ++ ("-summary.md").data),
            summaryText)]) ∧
      (title_base_name title
        = (lowerChars (title.data.map (fun c => if c = ' ' then '-' else c))).take 50) := by
  intro t md sm out
  exact ⟨rfl, rfl, rfl⟩

end Crawler
